import Mathlib

/-!
Verification development for the Connected Montreal marketing-analytics
repository (analyzer.py, collector.py, server.py).

The Python sources are shallowly embedded as executable Lean definitions:
dictionaries with `.get(key, default)` access become structures of `Option`
fields read through `Option.getD`; code that can raise (division by zero,
`datetime.fromisoformat` on a malformed string) returns `Except String`;
Python's `int(a / b * 100)` (float division then truncation toward zero)
is modelled exactly over `Int` as `Int.tdiv (a * 100) b`, ignoring only
floating-point rounding of the intermediate quotient; network calls are
passed in as parameters (an `Except` carrying either the collected records
or the raised exception's message).
-/

/-- Models Python `int(a / b * 100)` for integer `a`, `b` with `b ≠ 0`:
real division, scaling by 100, truncation toward zero. -/
def int_pct (a b : Int) : Int := Int.tdiv (a * 100) b

/-- Checked version of `int_pct`: Python raises `ZeroDivisionError` when the
denominator is zero. -/
def py_int_pct (a b : Int) : Except String Int :=
  if b = 0 then .error "ZeroDivisionError: division by zero" else .ok (int_pct a b)

/-- Boolean substring test on character lists (models Python `pat in hay`). -/
def list_infixOf (pat : List Char) : List Char → Bool
  | [] => pat.isEmpty
  | c :: t => pat.isPrefixOf (c :: t) || list_infixOf pat t

/-- Boolean substring test on strings (models Python `pat in s`). -/
def str_contains (s pat : String) : Bool := list_infixOf pat.data s.data

/-- ASCII lower-casing of one character (the traffic-source identifiers the
analyzer lowercases are ASCII). -/
def lowerChar (c : Char) : Char :=
  if 'A' ≤ c ∧ c ≤ 'Z' then Char.ofNat (c.toNat + 32) else c

/-- Models Python `s.lower()` on the ASCII source identifiers. -/
def py_lower (s : String) : String := String.mk (s.data.map lowerChar)

/-- Gregorian leap-year test (as used by Python's `datetime`). -/
def isLeap (y : Int) : Bool := y % 4 == 0 && (y % 100 != 0 || y % 400 == 0)

/-- Days in month `m` of year `y` (as validated by `datetime.fromisoformat`). -/
def daysInMonth (y : Int) (m : Nat) : Nat :=
  match m with
  | 1 => 31 | 2 => if isLeap y then 29 else 28 | 3 => 31 | 4 => 30
  | 5 => 31 | 6 => 30 | 7 => 31 | 8 => 31 | 9 => 30 | 10 => 31
  | 11 => 30 | 12 => 31 | _ => 0

/-- Day number of a civil date (standard days-from-civil formula), so that
subtracting two parsed dates yields the `timedelta.days` the analyzer
compares against 14. -/
def daysFromCivil (y : Int) (m d : Nat) : Int :=
  let yy : Int := if m ≤ 2 then y - 1 else y
  let era : Int := Int.fdiv yy 400
  let yoe : Int := yy - era * 400
  let doy : Int := Int.ofNat ((153 * (if 2 < m then m - 3 else m + 9) + 2) / 5 + d - 1)
  era * 146097 + yoe * 365 + Int.fdiv yoe 4 - Int.fdiv yoe 100 + doy - 719468

/-- Decimal digit value of a character, if it is a digit. -/
def digit? (c : Char) : Option Nat :=
  if '0' ≤ c ∧ c ≤ '9' then some (c.toNat - 48) else none

/-- Models `datetime.fromisoformat` on the date-only strings the collector
stores in `last_contact` (`YYYY-MM-DD`): returns the date's civil day number,
or `none` where Python raises `ValueError` (wrong shape, non-digits, or an
out-of-range month or day). -/
def fromIsoDate (s : String) : Option Int :=
  match s.data with
  | [c1, c2, c3, c4, h1, c5, c6, h2, c7, c8] =>
    if h1 = '-' ∧ h2 = '-' then
      match digit? c1, digit? c2, digit? c3, digit? c4,
            digit? c5, digit? c6, digit? c7, digit? c8 with
      | some a, some b, some c, some d, some e, some f, some g, some h =>
        let y : Int := Int.ofNat (a * 1000 + b * 100 + c * 10 + d)
        let m := e * 10 + f
        let dd := g * 10 + h
        if 1 ≤ m ∧ m ≤ 12 ∧ 1 ≤ dd ∧ dd ≤ daysInMonth y m then
          some (daysFromCivil y m dd)
        else none
      | _, _, _, _, _, _, _, _ => none
    else none
  | _ => none

/-! ### analyzer.py — data model of the daily report

`MarketingAnalyzer.analyze` reads `daily-report.json`. Each `.get(key,
default)` access becomes an `Option` field read by `getD`; page entries
(`{url, views}`) are modelled with their two fields present, as the
collector produces them. -/

/-- One entry of `ad_landing_pages` / `top_pages`: `{"url": ..., "views": ...}`. -/
structure AdPage where
  url : String
  views : Int
deriving DecidableEq

/-- One entry of `traffic_sources` (fields read via `.get`, so optional). -/
structure TrafficSource where
  source : Option String := none
  sessions : Option Int := none
deriving DecidableEq

/-- The `posthog` object of the daily report. -/
structure PosthogData where
  ad_landing_pages : Option (List AdPage) := none
  top_pages : Option (List AdPage) := none
  total_pageviews_7d : Option Int := none
  traffic_sources : Option (List TrafficSource) := none
deriving DecidableEq

/-- One entry of `leads_needing_followup` as the collector writes it
(`{name, status, last_contact}`). -/
structure FollowupLead where
  name : String
  status : String
  last_contact : String
deriving DecidableEq

/-- The `pipeline` object (`quoted` and `booked` read via `.get`). -/
structure PipelineCounts where
  new : Option Int := none
  quoted : Option Int := none
  booked : Option Int := none
  no_go : Option Int := none
deriving DecidableEq

/-- The `airtable` object of the daily report. -/
structure AirtableData where
  new_leads_7d : Option Int := none
  pipeline : Option PipelineCounts := none
  leads_needing_followup : Option (List FollowupLead) := none
deriving DecidableEq

/-- The daily report (`posthog` and `airtable` read via `.get(key, {})`). -/
structure Report where
  posthog : Option PosthogData := none
  airtable : Option AirtableData := none
deriving DecidableEq

/-- One proposal dict as built by `add_proposal`. -/
structure Proposal where
  id : String
  priority : String
  category : String
  issue : String
  solution : String
  effort : String
  expected_impact : String
deriving DecidableEq

/-- The mutable analyzer state: `self.proposals` and `self.proposal_counter`. -/
structure AnalyzerState where
  proposals : List Proposal := []
  counter : Nat := 0
deriving DecidableEq

/-- `MarketingAnalyzer.generate_id`: increment the counter and return
`f"{base}-{counter}"`. -/
def generate_id (st : AnalyzerState) (base : String) : String × AnalyzerState :=
  let c := st.counter + 1
  (base ++ "-" ++ Nat.repr c, { st with counter := c })

/-- `MarketingAnalyzer.add_proposal`: build the proposal dict and append it. -/
def add_proposal (st : AnalyzerState) (id_base priority category issue solution effort impact : String) : AnalyzerState :=
  let p := generate_id st id_base
  { p.2 with proposals := p.2.proposals ++
      [{ id := p.1, priority := priority, category := category, issue := issue,
         solution := solution, effort := effort, expected_impact := impact }] }

/-- `sum(page['views'] for page in ad_pages)`. -/
def total_ad_views (ph : PosthogData) : Int :=
  ((ph.ad_landing_pages.getD []).map AdPage.views).sum

/-- Rule 1, `_analyze_ad_conversion`: ad landing pages get traffic but lead
conversion is low. Fires when summed ad views > 50 and `new_leads_7d` < 20. -/
def analyze_ad_conversion (posthog : PosthogData) (airtable : AirtableData) (st : AnalyzerState) : Except String AnalyzerState :=
  let ad_pages := posthog.ad_landing_pages.getD []
  let new_leads := airtable.new_leads_7d.getD 0
  let total := total_ad_views posthog
  if 50 < total ∧ new_leads < 20 then do
    let url := match ad_pages with | [] => "unknown" | p :: _ => p.url
    let views := match ad_pages with | [] => (0 : Int) | p :: _ => p.views
    let pct ← py_int_pct new_leads total
    .ok (add_proposal st "low-conversion-ad-landing" "high" "ads"
      ("Ad landing page " ++ url ++ " gets " ++ toString views ++
       " clicks/week but only " ++ toString new_leads ++
       " new leads in 7 days across all channels (conversion rate ~" ++
       toString pct ++ "%)")
      ("A/B test " ++ url ++
       ": (1) Add social proof section with 3 testimonials + '500+ parties planned' counter; (2) Change headline to 'Montreal's #1 Bachelor Party Planners' (test vs current); (3) Simplify CTA button to 'Get Your Quote in 2 Minutes'; (4) Add FAQ section above fold addressing top objections (price, flexibility, rain plan)")
      "1hr"
      "Estimated +20-30% conversion rate = 8-12 additional leads/week")
  else .ok st

/-- Rule 2, `_analyze_pipeline_closure`: many quoted but zero booked.
`month` stands for `datetime.now().strftime('%B')` in the solution text. -/
def analyze_pipeline_closure (month : String) (airtable : AirtableData) (st : AnalyzerState) : Except String AnalyzerState :=
  let pipeline := airtable.pipeline.getD {}
  let quoted := pipeline.quoted.getD 0
  let booked := pipeline.booked.getD 0
  if 15 < quoted ∧ booked = 0 then
    .ok (add_proposal st "zero-closes-quoted" "high" "conversion"
      ("Pipeline stuck: " ++ toString quoted ++
       " leads quoted, but 0 booked. Quote-to-close rate is 0% despite $7.5M in pipeline value")
      ("Launch 'Close-the-Loop' sprint: (1) Create quote follow-up template: 'Hi \x7bname\x7d, checking in on your " ++
       month ++
       " bachelor party quote. Any questions? Happy to adjust details.'; (2) Set followup rule: reach out Day 3 and Day 7 after quote; (3) Schedule internal 'quote quality review' meeting—are quotes missing key details? Compare winning vs losing quotes; (4) Add 'value add' to quotes: bonus activities or package upgrades for quick decisions")
      "half-day"
      "Expected +15-20% close rate = 5-6 bookings/month")
  else .ok st

/-- The generator `sum(1 for lead in leads if (now - fromisoformat(lead['last_contact'])).days > 14)`:
raises (returns `.error`) at the first lead whose `last_contact` does not parse. -/
def count_overdue (today : Int) : List FollowupLead → Except String Nat
  | [] => .ok 0
  | l :: ls =>
    match fromIsoDate l.last_contact with
    | none => .error ("ValueError: Invalid isoformat string: " ++ l.last_contact)
    | some d => (count_overdue today ls).map
        (fun k => (if 14 < today - d then 1 else 0) + k)

/-- Rule 3, `_analyze_followup_cadence`: more than 3 leads awaiting followup.
`today` stands for `datetime.now()` as a civil day number. -/
def analyze_followup_cadence (today : Int) (airtable : AirtableData) (st : AnalyzerState) : Except String AnalyzerState :=
  let leads := airtable.leads_needing_followup.getD []
  if 3 < leads.length then do
    let overdue ← count_overdue today leads
    .ok (add_proposal st "followup-backlog" "high" "leads"
      (toString leads.length ++ " leads waiting for followup (" ++
       toString overdue ++
       " overdue by 2+ weeks). Last contact dates range from 1/6 to 2/24, blocking pipeline movement")
      "Clear the backlog: (1) Tier leads: A=contacted <7 days, B=7-14 days, C=>14 days; (2) This week: call all 'C' tier (overdue) with personal apology + re-quote; (3) Implement CRM rule: all quoted leads get auto-followup on Day 7 and Day 14; (4) Weekly 'pipeline review' call: Oren + Rod discuss each quoted lead's blocker"
      "1hr"
      "Expected to convert 3-5 of stalled leads = $15-30K in revenue")
  else .ok st

/-- `sum(p['views'] for p in top_pages[1:])`. -/
def other_views_sum (rest : List AdPage) : Int := (rest.map AdPage.views).sum

/-- Rule 4, `_analyze_content_depth`: homepage dominates traffic. The Python
guard `homepage_views > other_views / 2` (float division) is the exact
integer condition `other_views < 2 * homepage_views`. The ratio
`int((homepage_views / total_views) * 100)` divides by `total_pageviews_7d`
unconditionally once the guard holds. -/
def analyze_content_depth (posthog : PosthogData) (airtable : AirtableData) (st : AnalyzerState) : Except String AnalyzerState :=
  let top_pages := posthog.top_pages.getD []
  match top_pages with
  | [] => .ok st
  | p0 :: rest =>
    let homepage_views : Int := if p0.url = "/" then p0.views else 0
    let total_views := posthog.total_pageviews_7d.getD 0
    let other_views := other_views_sum rest
    let new_leads := airtable.new_leads_7d.getD 0
    if 0 < homepage_views ∧ other_views < 2 * homepage_views then do
      let homepage_ratio ← py_int_pct homepage_views total_views
      let conversion_rate ← py_int_pct new_leads total_views
      .ok (add_proposal st "homepage-bounce" "medium" "content"
        ("Homepage dominates traffic (" ++ toString homepage_ratio ++
         "% of views, " ++ toString homepage_views ++ " in 7 days) but " ++
         toString conversion_rate ++
         "% overall conversion rate suggests high bounce. Visitors landing and leaving without exploring")
        "Redesign homepage for depth: (1) Above fold: Hero section with 1 clear CTA 'See Bachelor Party Packages'; (2) Add 'Social Proof' section: 'Trusted by 500+ groups' + 3 video testimonials; (3) Add 'Popular Itineraries' carousel linking to /itineraries; (4) Add 'Blog' section featuring top posts (strip clubs guide, Austin crawl); (5) A/B test with control—measure downstream traffic to package/itinerary pages"
        "1hr"
        "Expected to drive +30-40% deeper navigation = 25-40 more leads/month")
    else .ok st

/-- The accumulation loop of `_analyze_traffic_sources`: sources containing
"google" (case-insensitive) add to `organic`; the exact source `$direct`
overwrites `direct` (assignment, not accumulation, as in the source). -/
def seo_counts (sources : List TrafficSource) : Int × Int :=
  sources.foldl
    (fun acc s =>
      let src := s.source.getD ""
      let ses := s.sessions.getD 0
      if str_contains (py_lower src) "google" then (acc.1 + ses, acc.2)
      else if src = "$direct" then (acc.1, ses) else acc)
    (0, 0)

/-- Rule 5, `_analyze_traffic_sources`: SEO gap. The issue text computes
`int(direct / organic * 100)`, dividing by `organic` unconditionally once
the total and percentage gates hold. -/
def analyze_traffic_sources (posthog : PosthogData) (st : AnalyzerState) : Except String AnalyzerState :=
  let sources := posthog.traffic_sources.getD []
  let od := seo_counts sources
  let organic := od.1
  let direct := od.2
  let total := organic + direct
  if 100 < total then do
    let organic_pct ← py_int_pct organic total
    if organic_pct < 60 then do
      let dpct ← py_int_pct direct organic
      .ok (add_proposal st "seo-gap" "medium" "seo"
        ("SEO needs work: Direct traffic (" ++ toString direct ++
         " sessions) is " ++ toString dpct ++ "% of Google traffic (" ++
         toString organic ++ " sessions). Indicates weak organic ranking")
        "SEO quick wins: (1) Audit top 5 pages for keyword targets (/bachelor-party-a-v2/, /packages/, /itineraries/) and add rich schema markup (LocalBusinessSchema, FAQ schema); (2) Create 3 new SEO-focused blog posts: 'Best Bachelor Party Venues in Montreal', 'How to Plan a Montreal Bachelor Party in 3 Days', 'Montreal Bachelor Party vs Vegas'; (3) Build internal linking: link from homepage to top 3 pages; (4) Check mobile UX (Core Web Vitals) on Google Search Console"
        "half-day"
        "Expected +30% organic traffic in 60 days (100+ new sessions)")
    else .ok st
  else .ok st

/-- `MarketingAnalyzer.analyze`: run the five rules in order over the report.
`today` models `datetime.now()` as a civil day number and `month` its
`strftime('%B')`; a `.error` result models an uncaught Python exception. -/
def analyze (report : Report) (today : Int) (month : String) : Except String (List Proposal) := do
  let posthog := report.posthog.getD {}
  let airtable := report.airtable.getD {}
  let st0 : AnalyzerState := {}
  let st1 ← analyze_ad_conversion posthog airtable st0
  let st2 ← analyze_pipeline_closure month airtable st1
  let st3 ← analyze_followup_cadence today airtable st2
  let st4 ← analyze_content_depth posthog airtable st3
  let st5 ← analyze_traffic_sources posthog st4
  .ok st5.proposals

/-- `priority_order = {'high': 0, 'medium': 1, 'low': 2}` of `main()`.
The Python dict lookup raises `KeyError` on any other string; the analyzer
only ever emits "high" and "medium", and the sorting theorems restrict to
the three mapped values, so the default rank 3 is never relied on. -/
def priority_rank (p : String) : Nat :=
  match p with
  | "high" => 0
  | "medium" => 1
  | "low" => 2
  | _ => 3

/-- `sorted(proposals, key=lambda p: priority_order[p['priority']])` of
`main()`: Python's `sorted` is a stable sort by the priority rank, embedded
as insertion sort by (non-strict) rank order, which is stable. -/
def sort_proposals (ps : List Proposal) : List Proposal :=
  List.insertionSort (fun a b => priority_rank a.priority ≤ priority_rank b.priority) ps

/-! ### collector.py / server.py — CRM records and pipeline bucketing -/

/-- The Airtable fields this system reads from a CRM record (every access in
the sources goes through `.get`, so each field is optional). Monetary fields
(`Grand Total`, `Service Total`) are kept as raw strings as Airtable returns
them. -/
structure AirFields where
  contactType : Option String := none
  status : Option String := none
  firstName : Option String := none
  lastName : Option String := none
  doa : Option String := none
  people : Option String := none
  createdOn : Option String := none
  sourceOfLead : Option String := none
  phone : Option String := none
  email : Option String := none
  notes : Option String := none
  name : Option String := none
  statusUpdateDate : Option String := none
  firstContactDate : Option String := none
deriving DecidableEq

/-- One CRM record (`{"id": ..., "createdTime": ..., "fields": {...}}`). -/
structure AirRecord where
  id : String := ""
  createdTime : String := ""
  fields : AirFields := {}
deriving DecidableEq

/-- The pipeline bucket counters `{"new": 0, "quoted": 0, "booked": 0, "no_go": 0}`. -/
structure PipelineQuad where
  new : Nat := 0
  quoted : Nat := 0
  booked : Nat := 0
  no_go : Nat := 0
deriving DecidableEq

/-- Increment the named bucket. -/
def bump (p : PipelineQuad) (b : String) : PipelineQuad :=
  match b with
  | "new" => { p with new := p.new + 1 }
  | "quoted" => { p with quoted := p.quoted + 1 }
  | "booked" => { p with booked := p.booked + 1 }
  | "no_go" => { p with no_go := p.no_go + 1 }
  | _ => p

/-- `status_map` of collector.py `get_airtable_data` (four entries). -/
def collector_status_map (s : String) : Option String :=
  match s with
  | "New Request" => some "new"
  | "talked to/ quoted" => some "quoted"
  | "Booked" => some "booked"
  | "No Go" => some "no_go"
  | _ => none

/-- `status_map` of server.py `fetch_live_data` (seven entries). -/
def server_status_map (s : String) : Option String :=
  match s with
  | "New Request" => some "new"
  | "talked to/ quoted" => some "quoted"
  | "Booked - Deposit" => some "booked"
  | "Booked" => some "booked"
  | "No Go" => some "no_go"
  | "No Go - Coming to Town" => some "no_go"
  | "No Go - Not Coming to Town" => some "no_go"
  | _ => none

/-- The aggregate `DataCollector.get_airtable_data` builds from the collected
records (its floating-point `total_pipeline_value` accumulation is
deliberately not modelled; no claim depends on it). -/
structure CollectorAirtable where
  new_leads_7d : Nat := 0
  pipeline : PipelineQuad := {}
  leads_needing_followup : List FollowupLead := []
deriving DecidableEq

/-- The per-record loop of `DataCollector.get_airtable_data`, over the
already-collected record list. `parseCreated` abstracts
`datetime.fromisoformat(created.replace("Z", "+00:00"))` (a `none` models the
swallowed exception of the bare `try`/`except: pass`); `start_date` is the
7-days-ago cutoff. Note: no Contact Type filter here — every record with a
recognized status is bucketed. -/
def get_airtable_data (records : List AirRecord) (parseCreated : String → Option Int) (start_date : Int) : CollectorAirtable :=
  let step := fun (acc : CollectorAirtable) (rec : AirRecord) =>
    let fields := rec.fields
    let status := fields.status.getD ""
    let acc :=
      match parseCreated rec.createdTime with
      | some t => if start_date ≤ t then { acc with new_leads_7d := acc.new_leads_7d + 1 } else acc
      | none => acc
    let acc :=
      match collector_status_map status with
      | some b => { acc with pipeline := bump acc.pipeline b }
      | none => acc
    if status = "New Request" ∨ status = "talked to/ quoted" then
      { acc with leads_needing_followup := acc.leads_needing_followup ++
          [{ name := fields.name.getD "Unknown", status := status,
             last_contact := (fields.statusUpdateDate.orElse (fun _ => fields.firstContactDate)).getD "Unknown" }] }
    else acc
  let r := records.foldl step {}
  { r with leads_needing_followup := r.leads_needing_followup.take 10 }

/-- `r.get("fields", {}).get("Contact Type") == "Party Main Contact"` of
server.py `fetch_live_data`. -/
def is_main_contact (r : AirRecord) : Bool :=
  r.fields.contactType == some "Party Main Contact"

/-- One lead dict of the server's `data["leads"]` list. -/
structure ServerLead where
  id : String
  first_name : String
  last_name : String
  status : String
  doa : String
  people : String
  created_on : String
  sourceOfLead : String
  phone : String
  email : String
  notes : String
deriving DecidableEq

/-- The lead-detail extraction of server.py `fetch_live_data`. -/
def server_lead_of (rec : AirRecord) : ServerLead :=
  { id := rec.id,
    first_name := rec.fields.firstName.getD "",
    last_name := rec.fields.lastName.getD "",
    status := rec.fields.status.getD "",
    doa := rec.fields.doa.getD "",
    people := rec.fields.people.getD "",
    created_on := rec.fields.createdOn.getD "",
    sourceOfLead := rec.fields.sourceOfLead.getD "",
    phone := rec.fields.phone.getD "",
    email := rec.fields.email.getD "",
    notes := rec.fields.notes.getD "" }

/-- The Airtable aggregate of server.py `fetch_live_data`. -/
structure ServerAirtable where
  pipeline : PipelineQuad := {}
  leads : List ServerLead := []
  total_leads : Nat := 0
deriving DecidableEq

/-- The Airtable section of server.py `fetch_live_data`: filter the collected
records to `main_contacts` (Contact Type = "Party Main Contact") first, then
bucket each by the status map and extract lead details. -/
def server_airtable (all_records : List AirRecord) : ServerAirtable :=
  let main_contacts := all_records.filter is_main_contact
  { pipeline := main_contacts.foldl
      (fun p rec =>
        match server_status_map (rec.fields.status.getD "") with
        | some b => bump p b
        | none => p)
      {},
    leads := main_contacts.map server_lead_of,
    total_leads := main_contacts.length }

/-- One PostHog `$pageview` event, reduced to the property the server reads
(`e.get("properties", {}).get("$pathname", "/")`). -/
structure PHEvent where
  pathname : Option String := none
deriving DecidableEq

/-- `collections.Counter` items: distinct keys in first-occurrence order with
their multiplicities. -/
def counter_items (l : List String) : List (String × Nat) :=
  (l.foldl (fun ks s => if ks.contains s then ks else ks ++ [s]) []).map
    (fun s => (s, l.count s))

/-- `Counter.most_common(n)`: stable sort by count descending, take `n`. -/
def most_common (n : Nat) (items : List (String × Nat)) : List (String × Nat) :=
  (List.insertionSort (fun a b => b.2 ≤ a.2) items).take n

/-- The payload dict `data` that server.py `fetch_live_data` assembles: a key
is present (`some`) exactly when the corresponding branch assigned it. -/
structure ServerPayload where
  pageviews_7d : Option Nat := none
  top_pages : Option (List AdPage) := none
  posthog_error : Option String := none
  pipeline : Option PipelineQuad := none
  leads : Option (List ServerLead) := none
  total_leads : Option Nat := none
  airtable_error : Option String := none
deriving DecidableEq

/-- Python truthiness of the payload dict (`if _cache["data"]`): a dict is
truthy iff it is non-empty, i.e. some key was assigned. -/
def payload_truthy (d : ServerPayload) : Bool :=
  d.pageviews_7d.isSome || d.top_pages.isSome || d.posthog_error.isSome ||
  d.pipeline.isSome || d.leads.isSome || d.total_leads.isSome || d.airtable_error.isSome

/-- `_cache = {"data": None, "ts": 0}`. -/
structure CacheState where
  data : Option ServerPayload := none
  ts : Int := 0
deriving DecidableEq

/-- The process state fetch_live_data touches: the in-memory cache slot and
the on-disk mirror `.cache.json` (the mirror write sits in a `try`/`except:
pass`; the normal, successful write is modelled). -/
structure ServerWorld where
  cache : CacheState := {}
  disk : Option (ServerPayload × Int) := none
deriving DecidableEq

/-- `CACHE_TTL = 1800`. -/
def CACHE_TTL : Int := 1800

/-- The upstream world of one fetch: the PostHog call's outcome (events, or
the raised exception's message), whether `AIRTABLE_TOKEN` is set, and the
Airtable pagination's outcome (collected records, or the exception). -/
structure Upstream where
  posthog : Except String (List PHEvent)
  airtable_token : Bool := true
  airtable : Except String (List AirRecord)

/-- The body of server.py `fetch_live_data` past the cache check: assemble the
payload dict from the two guarded upstream sections. -/
def assemble_payload (u : Upstream) : ServerPayload :=
  let d0 : ServerPayload := {}
  let d1 :=
    match u.posthog with
    | .ok events =>
      { d0 with
        pageviews_7d := some events.length,
        top_pages := some ((most_common 5
          (counter_items (events.map (fun e => e.pathname.getD "/")))).map
            (fun x => ({ url := x.1, views := (x.2 : Int) } : AdPage))) }
    | .error e => { d0 with posthog_error := some e }
  if u.airtable_token then
    match u.airtable with
    | .ok recs =>
      let r := server_airtable recs
      { d1 with pipeline := some r.pipeline, leads := some r.leads,
                total_leads := some r.total_leads }
    | .error e => { d1 with airtable_error := some e }
  else d1

/-- server.py `fetch_live_data`: serve from the cache slot when it is truthy
and fresh, otherwise re-assemble, overwrite the slot and the disk mirror and
stamp `now`. The returned `Bool` records whether the upstream fetchers were
invoked. -/
def fetch_live_data (now : Int) (u : Upstream) (w : ServerWorld) : ServerPayload × ServerWorld × Bool :=
  let hit :=
    match w.cache.data with
    | some d => if payload_truthy d && decide (now - w.cache.ts < CACHE_TTL) then some d else none
    | none => none
  match hit with
  | some d => (d, w, false)
  | none =>
    let p := assemble_payload u
    (p, { cache := { data := some p, ts := now }, disk := some (p, now) }, true)

/-- server.py `api_refresh`: zero the cache timestamp, then read. -/
def api_refresh (now : Int) (u : Upstream) (w : ServerWorld) : ServerPayload × ServerWorld × Bool :=
  fetch_live_data now u { w with cache := { w.cache with ts := 0 } }

/-! ### server.py — quote portal -/

/-- One entry of `quote_tokens.json`: `{record_id, password, created_at}`. -/
structure TokenInfo where
  record_id : String
  password : String
  created_at : String := ""
deriving DecidableEq

/-- Token-store lookup (`token in tokens` / `tokens[token]`). -/
def load_token (tokens : List (String × TokenInfo)) (t : String) : Option TokenInfo :=
  (tokens.find? (fun kv => kv.1 == t)).map (fun kv => kv.2)

/-- `session.get(f"quote_{token}")`: the session is the set of tokens whose
per-token flag is set. Distinct tokens give distinct `quote_…` session keys,
so a list of tokens is a faithful model of the flag dictionary. -/
def session_authed (sess : List String) (t : String) : Bool := sess.contains t

/-- Outcome of `quote_auth`. -/
inductive AuthResult
  | ok
  | wrongPassword
  | notFound
deriving DecidableEq

/-- server.py `quote_auth`: 404 for an unknown token; on a password match set
`session[f"quote_{token}"] = True` and return ok; on mismatch return 401 and
leave the session unchanged. -/
def quote_auth (tokens : List (String × TokenInfo)) (sess : List String) (token password : String) : AuthResult × List String :=
  match load_token tokens token with
  | none => (.notFound, sess)
  | some info =>
    if password = info.password then (.ok, token :: sess)
    else (.wrongPassword, sess)

/-- Outcome of `quote_view`: 404, a redirect to the password gate, or the
rendered portal page for the token's record (the HTML rendering itself is
presentation, out of scope; `page` carries the record id whose CRM data is
fetched and rendered). -/
inductive ViewResult
  | notFound
  | redirect (location : String)
  | page (record_id : String)
deriving DecidableEq

/-- server.py `quote_view`: 404 for an unknown token; redirect to
`/quote/<token>` when the session flag is unset; otherwise render. -/
def quote_view (tokens : List (String × TokenInfo)) (sess : List String) (token : String) : ViewResult :=
  match load_token tokens token with
  | none => .notFound
  | some info =>
    if session_authed sess token then .page info.record_id
    else .redirect ("/quote/" ++ token)

/-! ### Quote-portal patch routes (spec-modelled)

The spec's HTTP surface lists `POST /quote/<token>/update-event` and
`POST /quote/<token>/update-field`, and §4.4 describes their behaviour, but
no such handlers exist under src/ — the definitions below are modelled from
the spec's words. -/

/-- Modelled from the spec: one itinerary event's patchable attributes
(start time, day assignment with its resolved date, quantity, duration);
the handlers for these are missing from src/. -/
structure ItineraryEvent where
  start_time : String
  day : Nat
  date : String
  quantity : Int
  duration : Int
deriving DecidableEq

/-- Modelled from the spec: the JSON body of `update-event` — each field
independently optional, only supplied fields are patched. -/
structure EventPatch where
  start_time : Option String := none
  day : Option Nat := none
  quantity : Option Int := none
  duration : Option Int := none
deriving DecidableEq

/-- Modelled from the spec: outcome of a patch route — 404 for an unknown
token, unauthorized outside the authenticated-session state, rejected for a
disallowed field or a value that fails the integer coercion, or the patch
pushed to the CRM. -/
inductive PatchResult (α : Type)
  | notFound
  | unauthorized
  | rejected
  | ok (pushed : α)
deriving DecidableEq

/-- Modelled from the spec: apply an `update-event` body to an event — only
supplied fields are patched, and a supplied day is re-resolved to a concrete
date via the client's day-date fields (`day_dates`). -/
def apply_event_patch (day_dates : Nat → Option String) (ev : ItineraryEvent) (body : EventPatch) : ItineraryEvent :=
  { start_time := body.start_time.getD ev.start_time,
    day := body.day.getD ev.day,
    date := match body.day with
      | some d => (day_dates d).getD ev.date
      | none => ev.date,
    quantity := body.quantity.getD ev.quantity,
    duration := body.duration.getD ev.duration }

/-- Modelled from the spec: the `POST /quote/<token>/update-event` handler,
missing from src/ — gated exactly like the view route (unknown token → 404,
session flag unset → unauthorized), and in the authenticated state the
patched event is pushed to the CRM. -/
def update_event (tokens : List (String × TokenInfo)) (sess : List String) (token : String) (day_dates : Nat → Option String) (ev : ItineraryEvent) (body : EventPatch) : PatchResult ItineraryEvent :=
  match load_token tokens token with
  | none => .notFound
  | some _ =>
    if session_authed sess token then .ok (apply_event_patch day_dates ev body)
    else .unauthorized

/-- Fold a digit list into a number, failing on a non-digit or an empty list. -/
def parse_digits (ds : List Char) : Option Nat :=
  if ds.isEmpty then none
  else ds.foldl (fun acc c => do
    let a ← acc
    let d ← digit? c
    pure (10 * a + d)) (some 0)

/-- Models Python `int(value)` on a string: optional sign then digits. -/
def parse_int? (s : String) : Option Int :=
  match s.data with
  | '-' :: ds => (parse_digits ds).map (fun n => -(n : Int))
  | ds => (parse_digits ds).map (fun n => (n : Int))

/-- Modelled from the spec: the client field the portal may patch — the
guest count. -/
structure ClientRecord where
  people : Int
deriving DecidableEq

/-- Modelled from the spec: the `POST /quote/<token>/update-field` handler,
missing from src/ — gated like the view route; the patchable field is
restricted to an allow-list of one (the guest count), whose value must parse
as an integer. -/
def update_field (tokens : List (String × TokenInfo)) (sess : List String) (token : String) (client : ClientRecord) (field value : String) : PatchResult ClientRecord :=
  match load_token tokens token with
  | none => .notFound
  | some _ =>
    if session_authed sess token then
      if field = "People" then
        match parse_int? value with
        | some n => .ok { client with people := n }
        | none => .rejected
      else .rejected
    else .unauthorized

/-! ### Concrete inputs used by the theorems -/

/-- The posthog object of the spec's end-to-end scenario for the ad rule. -/
def posthog_c1 : PosthogData := { ad_landing_pages := some [{ url := "/book", views := 80 }] }

/-- The airtable object of the spec's end-to-end scenario for the ad rule. -/
def airtable_c1 : AirtableData := { new_leads_7d := some 10 }

/-- `ad_landing_pages=[{url:"/book",views:80}]`, `new_leads_7d=10`. -/
def report_c1 : Report := { posthog := some posthog_c1, airtable := some airtable_c1 }

/-- `pipeline={quoted:20,booked:0}`. -/
def report_c2 : Report :=
  { airtable := some { pipeline := some { quoted := some 20, booked := some 0 } } }

/-- A report on which the content-depth rule divides by a zero
`total_pageviews_7d`: the top page is the homepage with 5 views and the
total-pageviews field is absent (defaulted to 0). -/
def report_div0 : Report := { posthog := some { top_pages := some [{ url := "/", views := 5 }] } }

/-- A report on which the SEO-gap rule divides by a zero organic count: all
sessions are `$direct`. -/
def report_seo0 : Report :=
  { posthog := some { traffic_sources := some [{ source := some "$direct", sessions := some 150 }] } }

/-- A report whose four followup leads carry the collector's "Unknown"
placeholder in `last_contact`, which `fromisoformat` cannot parse. -/
def report_baddate : Report :=
  { airtable := some
      { leads_needing_followup := some
          [{ name := "A", status := "New Request", last_contact := "Unknown" },
           { name := "B", status := "New Request", last_contact := "Unknown" },
           { name := "C", status := "New Request", last_contact := "Unknown" },
           { name := "D", status := "New Request", last_contact := "Unknown" }] } }

/-- A report that triggers the content-depth rule with a nonzero total, so
the guarded-analysis theorem applies with all hypotheses discharged. -/
def report_c3w : Report :=
  { posthog := some { top_pages := some [{ url := "/", views := 10 }], total_pageviews_7d := some 100 } }

/-- A CRM record marked as a secondary attendee but carrying a booked status. -/
def rec_secondary : AirRecord :=
  { id := "recSec", fields := { contactType := some "Guest", status := some "Booked" } }

/-- A CRM record marked as the party's main contact with a booked status. -/
def rec_main : AirRecord :=
  { id := "recMain", fields := { contactType := some "Party Main Contact", status := some "Booked" } }

/-- A one-entry token store used by the portal witnesses. -/
def tokens_ex : List (String × TokenInfo) := [("tok1", { record_id := "rec1", password := "pw1" })]

/-- A concrete event used by the patch-route witness. -/
def ev_ex : ItineraryEvent :=
  { start_time := "7:00 PM", day := 1, date := "June 6", quantity := 10, duration := 2 }

/-- A concrete patch body supplying only a new start time and a new day. -/
def body_ex : EventPatch := { start_time := some "9:00 PM", day := some 2 }

/-- The client's day-date fields used by the patch-route witness. -/
def day_dates_ex (d : Nat) : Option String := if d = 2 then some "June 7" else none

/-- A truthy cached payload used by the cache witnesses. -/
def payload_ex : ServerPayload := { pageviews_7d := some 3 }

/-- A cache state holding `payload_ex` stamped at 1000. -/
def world_ex : ServerWorld := { cache := { data := some payload_ex, ts := 1000 } }

/-- An upstream world whose two fetches both raise. -/
def upstream_err : Upstream := { posthog := .error "PostHog down", airtable := .error "Airtable down" }

/-- The in-memory/disk state left behind by the failed fetch of the C10
witness. -/
def err_world : ServerWorld :=
  { cache := { data := some { posthog_error := some "PostHog down", airtable_error := some "Airtable down" }, ts := 5000 },
    disk := some ({ posthog_error := some "PostHog down", airtable_error := some "Airtable down" }, 5000) }

/-- An upstream world whose two fetches both succeed with empty data. -/
def upstream_ok : Upstream := { posthog := .ok [], airtable := .ok [] }

/-- A four-proposal list of mixed priorities used by the sorting witness. -/
def props_ex : List Proposal :=
  [{ id := "m1", priority := "medium", category := "", issue := "", solution := "", effort := "", expected_impact := "" },
   { id := "h1", priority := "high", category := "", issue := "", solution := "", effort := "", expected_impact := "" },
   { id := "l1", priority := "low", category := "", issue := "", solution := "", effort := "", expected_impact := "" },
   { id := "h2", priority := "high", category := "", issue := "", solution := "", effort := "", expected_impact := "" }]

/-- Value of a decimal digit string, folding left (as positional notation). -/
def digits_val (l : List Char) : Nat := l.foldl (fun a c => 10 * a + (c.toNat - 48)) 0

/-- The counter component of a generated proposal id: the digit run after
the final dash, as a number. -/
def id_counter_val (s : String) : Nat :=
  digits_val ((s.data.reverse.takeWhile (fun c => c != '-')).reverse)

/-- One `add_proposal` call's seven string arguments, so that an arbitrary
sequence of calls — a rule firing any number of times — can be quantified
over. -/
structure ProposalInput where
  id_base : String
  priority : String
  category : String
  issue : String
  solution : String
  effort : String
  impact : String

/-- Run an arbitrary sequence of `add_proposal` calls against a state. -/
def run_adds (inputs : List ProposalInput) (st : AnalyzerState) : AnalyzerState :=
  inputs.foldl
    (fun s i => add_proposal s i.id_base i.priority i.category i.issue i.solution i.effort i.impact)
    st

/-- The id-uniqueness invariant: the generated ids are distinct, and every
stored id's counter component is bounded by the current counter. -/
def ids_ok (st : AnalyzerState) : Prop :=
  (st.proposals.map Proposal.id).Nodup ∧
  ∀ p ∈ st.proposals, id_counter_val p.id ≤ st.counter

/-! ### Theorems: the claims and their helper lemmas -/

/-! ### Theorems -/

/-- C1: the ad-conversion rule emits exactly one proposal when the summed
ad-landing-page views exceed 50 and `new_leads_7d` is below 20, and none
otherwise; on the report `ad_landing_pages=[{url:"/book",views:80}]`,
`new_leads_7d=10`, `analyze` yields exactly that one proposal, whose issue
text contains "/book", "80", "10" and the truncated conversion figure 12. -/
theorem ad_conversion_rule_correct :
    (∀ (posthog : PosthogData) (airtable : AirtableData) (st : AnalyzerState),
      (50 < total_ad_views posthog ∧ airtable.new_leads_7d.getD 0 < 20 →
        (analyze_ad_conversion posthog airtable st).map (fun s => s.proposals.length) =
          .ok (st.proposals.length + 1)) ∧
      (¬(50 < total_ad_views posthog ∧ airtable.new_leads_7d.getD 0 < 20) →
        analyze_ad_conversion posthog airtable st = .ok st)) ∧
    (∃ p, analyze report_c1 0 "" = .ok [p] ∧
      str_contains p.issue "/book" = true ∧ str_contains p.issue "80" = true ∧
      str_contains p.issue "10" = true ∧ str_contains p.issue "12" = true) := by
  constructor
  · intro posthog airtable st
    constructor
    · intro h
      have htot : total_ad_views posthog ≠ 0 := by
        intro h0
        rw [h0] at h
        exact absurd h.1 (by norm_num)
      simp only [analyze_ad_conversion, py_int_pct, if_pos h, if_neg htot]
      simp [Except.map, Bind.bind, Except.bind, add_proposal, generate_id]
    · intro h
      simp only [analyze_ad_conversion, if_neg h]
  · exact ⟨_, rfl, rfl, rfl, rfl, rfl⟩

/-- C1 witness: the rule theorem applied at the scenario's input, with both
threshold hypotheses discharged concretely. -/
theorem ad_conversion_rule_correct_witness :
    (50 < total_ad_views posthog_c1 ∧ airtable_c1.new_leads_7d.getD 0 < 20) ∧
    (analyze_ad_conversion posthog_c1 airtable_c1 {}).map (fun s => s.proposals.length) = .ok 1 :=
  ⟨by decide, (ad_conversion_rule_correct.1 posthog_c1 airtable_c1 {}).1 (by decide)⟩

/-- C2: the pipeline-closure rule fires exactly when the quoted count
exceeds 15 and the booked count is zero — in particular never when booked is
at least 1 — and on `pipeline={quoted:20,booked:0}` `analyze` emits exactly
one proposal with id base "zero-closes-quoted" (id "zero-closes-quoted-1")
and priority "high". -/
theorem pipeline_closure_rule_correct :
    (∀ (month : String) (airtable : AirtableData) (st : AnalyzerState),
      (15 < (airtable.pipeline.getD {}).quoted.getD 0 ∧ (airtable.pipeline.getD {}).booked.getD 0 = 0 →
        (analyze_pipeline_closure month airtable st).map (fun s => s.proposals.length) =
          .ok (st.proposals.length + 1)) ∧
      (¬(15 < (airtable.pipeline.getD {}).quoted.getD 0 ∧ (airtable.pipeline.getD {}).booked.getD 0 = 0) →
        analyze_pipeline_closure month airtable st = .ok st) ∧
      (1 ≤ (airtable.pipeline.getD {}).booked.getD 0 →
        analyze_pipeline_closure month airtable st = .ok st)) ∧
    (∀ month, ∃ p, analyze report_c2 0 month = .ok [p] ∧
      p.id = "zero-closes-quoted-1" ∧ p.priority = "high") := by
  constructor
  · intro month airtable st
    refine ⟨fun h => ?_, fun h => ?_, fun h => ?_⟩
    · simp only [analyze_pipeline_closure, if_pos h]
      simp [Except.map, add_proposal, generate_id]
    · simp only [analyze_pipeline_closure, if_neg h]
    · have : ¬(15 < (airtable.pipeline.getD {}).quoted.getD 0 ∧
          (airtable.pipeline.getD {}).booked.getD 0 = 0) := by
        rintro ⟨-, hb⟩
        rw [hb] at h
        exact absurd h (by norm_num)
      simp only [analyze_pipeline_closure, if_neg this]
  · intro month
    exact ⟨_, rfl, rfl, rfl⟩

/-- C2 witness: the closure theorem applied at `pipeline={quoted:20,booked:0}`
with the threshold hypotheses discharged concretely. -/
theorem pipeline_closure_rule_correct_witness :
    (15 < ((({ pipeline := some { quoted := some 20, booked := some 0 } } : AirtableData).pipeline.getD {}).quoted.getD 0) ∧
      ((({ pipeline := some { quoted := some 20, booked := some 0 } } : AirtableData).pipeline.getD {}).booked.getD 0) = 0) ∧
    (analyze_pipeline_closure "March" { pipeline := some { quoted := some 20, booked := some 0 } } {}).map (fun s => s.proposals.length) = .ok 1 :=
  ⟨by decide,
   (pipeline_closure_rule_correct.1 "March" { pipeline := some { quoted := some 20, booked := some 0 } } {}).1 (by decide)⟩

/-- If an `Except` is ok, it carries a value. -/
theorem exists_ok {ε : Type} {α : Type} {e : Except ε α} (h : e.isOk = true) : ∃ a, e = .ok a := by
  cases e with
  | error ε => simp [Except.isOk, Except.toBool] at h
  | ok a => exact ⟨a, rfl⟩

/-- Binding an ok value is application. -/
theorem ok_bind {ε α β : Type} (a : α) (f : α → Except ε β) :
    ((Except.ok a : Except ε α) >>= f) = f a := rfl

/-- Rewriting a bind whose left side is known to be ok. -/
theorem bind_ok_congr {ε α β : Type} {a : α} {e : Except ε α} (f : α → Except ε β) (h : e = .ok a) : (e >>= f) = f a := by
  rw [h]; rfl

/-- Rule 1 never errors: its only division is guarded by the view threshold. -/
theorem analyze_ad_conversion_isOk (posthog : PosthogData) (airtable : AirtableData) (st : AnalyzerState) :
    (analyze_ad_conversion posthog airtable st).isOk = true := by
  by_cases h : 50 < total_ad_views posthog ∧ airtable.new_leads_7d.getD 0 < 20
  · have htot : total_ad_views posthog ≠ 0 := by
      intro h0
      rw [h0] at h
      exact absurd h.1 (by norm_num)
    simp only [analyze_ad_conversion, py_int_pct, if_pos h, if_neg htot]
    rfl
  · simp only [analyze_ad_conversion, if_neg h]
    rfl

/-- Rule 2 never errors: it performs no division and no parsing. -/
theorem analyze_pipeline_closure_isOk (month : String) (airtable : AirtableData) (st : AnalyzerState) :
    (analyze_pipeline_closure month airtable st).isOk = true := by
  by_cases h : 15 < (airtable.pipeline.getD {}).quoted.getD 0 ∧ (airtable.pipeline.getD {}).booked.getD 0 = 0
  · simp only [analyze_pipeline_closure, if_pos h]
    rfl
  · simp only [analyze_pipeline_closure, if_neg h]
    rfl

/-- The overdue count succeeds when every lead's `last_contact` parses. -/
theorem count_overdue_isOk (today : Int) (leads : List FollowupLead)
    (h : ∀ l ∈ leads, (fromIsoDate l.last_contact).isSome = true) :
    ∃ k, count_overdue today leads = .ok k := by
  induction leads with
  | nil => exact ⟨0, rfl⟩
  | cons l ls ih =>
    obtain ⟨d, hd⟩ := Option.isSome_iff_exists.mp (h l (List.mem_cons_self l ls))
    obtain ⟨k, hk⟩ := ih (fun x hx => h x (List.mem_cons_of_mem l hx))
    refine ⟨(if 14 < today - d then 1 else 0) + k, ?_⟩
    simp only [count_overdue, hd, hk]
    rfl

/-- Rule 3 errors only on an unparseable `last_contact` among more than three
followup leads. -/
theorem analyze_followup_cadence_isOk (today : Int) (airtable : AirtableData) (st : AnalyzerState)
    (h3 : 3 < ((airtable.leads_needing_followup.getD []) : List FollowupLead).length →
      ∀ l ∈ (airtable.leads_needing_followup.getD [] : List FollowupLead),
        (fromIsoDate l.last_contact).isSome = true) :
    (analyze_followup_cadence today airtable st).isOk = true := by
  by_cases hl : 3 < (airtable.leads_needing_followup.getD [] : List FollowupLead).length
  · obtain ⟨k, hk⟩ := count_overdue_isOk today _ (h3 hl)
    simp only [analyze_followup_cadence, if_pos hl, hk]
    rfl
  · simp only [analyze_followup_cadence, if_neg hl]
    rfl

/-- Rule 4 errors only on a zero `total_pageviews_7d` while its homepage
guard holds. -/
theorem analyze_content_depth_isOk (posthog : PosthogData) (airtable : AirtableData) (st : AnalyzerState)
    (h1 : ∀ p0 rest, posthog.top_pages.getD [] = p0 :: rest →
      p0.url = "/" → 0 < p0.views → other_views_sum rest < 2 * p0.views →
      posthog.total_pageviews_7d.getD 0 ≠ 0) :
    (analyze_content_depth posthog airtable st).isOk = true := by
  rcases htp : (posthog.top_pages.getD [] : List AdPage) with _ | ⟨p0, rest⟩
  · simp only [analyze_content_depth, htp]
    rfl
  · simp only [analyze_content_depth, htp]
    by_cases hc : 0 < (if p0.url = "/" then p0.views else 0) ∧
        other_views_sum rest < 2 * (if p0.url = "/" then p0.views else 0)
    · have hurl : p0.url = "/" := by
        by_contra hne
        rw [if_neg hne] at hc
        exact absurd hc.1 (by norm_num)
      rw [if_pos hurl] at hc
      have htot : posthog.total_pageviews_7d.getD 0 ≠ 0 :=
        h1 p0 rest htp hurl hc.1 hc.2
      rw [if_pos (by rw [if_pos hurl]; exact hc)]
      simp only [py_int_pct, if_neg htot]
      rfl
    · rw [if_neg hc]
      rfl

/-- Rule 5 errors only on a zero organic count while its two gates hold. -/
theorem analyze_traffic_sources_isOk (posthog : PosthogData) (st : AnalyzerState)
    (h2 : 100 < (seo_counts (posthog.traffic_sources.getD [])).1 + (seo_counts (posthog.traffic_sources.getD [])).2 →
      int_pct (seo_counts (posthog.traffic_sources.getD [])).1
        ((seo_counts (posthog.traffic_sources.getD [])).1 + (seo_counts (posthog.traffic_sources.getD [])).2) < 60 →
      (seo_counts (posthog.traffic_sources.getD [])).1 ≠ 0) :
    (analyze_traffic_sources posthog st).isOk = true := by
  by_cases ht : 100 < (seo_counts (posthog.traffic_sources.getD [])).1 + (seo_counts (posthog.traffic_sources.getD [])).2
  · have htot : (seo_counts (posthog.traffic_sources.getD [])).1 + (seo_counts (posthog.traffic_sources.getD [])).2 ≠ 0 := by
      intro h0
      rw [h0] at ht
      exact absurd ht (by norm_num)
    by_cases hp : int_pct (seo_counts (posthog.traffic_sources.getD [])).1
        ((seo_counts (posthog.traffic_sources.getD [])).1 + (seo_counts (posthog.traffic_sources.getD [])).2) < 60
    · have horg := h2 ht hp
      simp only [analyze_traffic_sources, py_int_pct, if_pos ht, if_neg htot, ok_bind]
      rw [if_pos hp, if_neg horg]
      rfl
    · simp only [analyze_traffic_sources, py_int_pct, if_pos ht, if_neg htot, ok_bind]
      rw [if_neg hp]
      rfl
  · simp only [analyze_traffic_sources, if_neg ht]
    rfl

/-- C3 counterexample: `analyze()` does raise. On a report whose only top
page is the homepage while `total_pageviews_7d` is missing, the
content-depth rule raises ZeroDivisionError; on a report with 150 `$direct`
sessions and no organic ones, the SEO-gap rule's issue text divides by the
zero organic count; on a report with four followup leads whose
`last_contact` is the collector's "Unknown" placeholder, the follow-up
rule's `fromisoformat` raises ValueError. -/
theorem analyze_raises_counterexample :
    analyze report_div0 0 "" = .error "ZeroDivisionError: division by zero" ∧
    analyze report_seo0 0 "" = .error "ZeroDivisionError: division by zero" ∧
    analyze report_baddate 20000 "" = .error "ValueError: Invalid isoformat string: Unknown" :=
  ⟨rfl, rfl, rfl⟩

/-- C3 (amended): `analyze()` never raises provided the three unguarded
denominators/parses are benign: `total_pageviews_7d` is nonzero whenever the
content-depth guard holds, the organic session count is nonzero whenever the
SEO-gap rule reaches its issue text, and every lead's `last_contact` parses
as an ISO date whenever more than three leads await follow-up. Missing
top-level inputs are still defaulted to empty/zero, so rules merely fail to
trigger. -/
theorem analyze_never_raises_when_guarded :
    ∀ (report : Report) (today : Int) (month : String),
      (∀ p0 rest, (report.posthog.getD {}).top_pages.getD [] = p0 :: rest →
        p0.url = "/" → 0 < p0.views → other_views_sum rest < 2 * p0.views →
        (report.posthog.getD {}).total_pageviews_7d.getD 0 ≠ 0) →
      (100 < (seo_counts ((report.posthog.getD {}).traffic_sources.getD [])).1 +
          (seo_counts ((report.posthog.getD {}).traffic_sources.getD [])).2 →
        int_pct (seo_counts ((report.posthog.getD {}).traffic_sources.getD [])).1
          ((seo_counts ((report.posthog.getD {}).traffic_sources.getD [])).1 +
           (seo_counts ((report.posthog.getD {}).traffic_sources.getD [])).2) < 60 →
        (seo_counts ((report.posthog.getD {}).traffic_sources.getD [])).1 ≠ 0) →
      (3 < ((report.airtable.getD {}).leads_needing_followup.getD [] : List FollowupLead).length →
        ∀ l ∈ ((report.airtable.getD {}).leads_needing_followup.getD [] : List FollowupLead),
          (fromIsoDate l.last_contact).isSome = true) →
      (analyze report today month).isOk = true := by
  intro report today month h1 h2 h3
  obtain ⟨st1, e1⟩ := exists_ok (analyze_ad_conversion_isOk (report.posthog.getD {}) (report.airtable.getD {}) {})
  obtain ⟨st2, e2⟩ := exists_ok (analyze_pipeline_closure_isOk month (report.airtable.getD {}) st1)
  obtain ⟨st3, e3⟩ := exists_ok (analyze_followup_cadence_isOk today (report.airtable.getD {}) st2 h3)
  obtain ⟨st4, e4⟩ := exists_ok (analyze_content_depth_isOk (report.posthog.getD {}) (report.airtable.getD {}) st3 h1)
  obtain ⟨st5, e5⟩ := exists_ok (analyze_traffic_sources_isOk (report.posthog.getD {}) st4 h2)
  simp only [analyze, e1, ok_bind, e2, e3, e4, e5]
  rfl

/-- C3 witness: the amended theorem applied at a concrete report that fires
the content-depth rule, each hypothesis discharged by evaluation. -/
theorem analyze_never_raises_when_guarded_witness :
    (analyze report_c3w 0 "").isOk = true :=
  analyze_never_raises_when_guarded report_c3w 0 ""
    (fun _ _ _ _ _ _ => by decide) (by decide) (by decide)

/-- C5 counterexample: the collector's CRM fetcher (`get_airtable_data` of
collector.py, one of the claim's cited sources) applies no contact-type
filter — a record whose Contact Type marks it as a secondary attendee
("Guest") with status "Booked" is counted in the booked pipeline bucket. -/
theorem collector_counts_secondary_counterexample :
    rec_secondary.fields.contactType = some "Guest" ∧
    (get_airtable_data [rec_secondary] (fun _ => none) 0).pipeline.booked = 1 :=
  ⟨rfl, rfl⟩

/-- C5 (amended): only the server's live-data CRM fetcher filters to primary
contacts before bucketing — appending a record whose Contact Type is not
"Party Main Contact" leaves the server's entire Airtable aggregate
(pipeline buckets, lead list, total) unchanged. -/
theorem server_fetch_ignores_secondary :
    ∀ (records : List AirRecord) (r : AirRecord),
      r.fields.contactType ≠ some "Party Main Contact" →
      server_airtable (records ++ [r]) = server_airtable records := by
  intro records r h
  have hm : is_main_contact r = false := by
    rw [is_main_contact]
    exact beq_eq_false_iff_ne.mpr h
  simp [server_airtable, List.filter_append, List.filter, hm]

/-- C5 witness: the amended theorem applied at a two-record list, the
non-primary hypothesis discharged concretely. -/
theorem server_fetch_ignores_secondary_witness :
    server_airtable ([rec_main] ++ [rec_secondary]) = server_airtable [rec_main] :=
  server_fetch_ignores_secondary [rec_main] rec_secondary (by decide)

/-- C6: for every stored token, a `/view` request by a session without the
per-token flag redirects to the password gate; a correct-password POST to
`/auth` returns ok and sets exactly that token's session flag (after which
the same session reaches the rendered view); a wrong password returns the
401 outcome and leaves the session unchanged. -/
theorem quote_portal_gating :
    ∀ (tokens : List (String × TokenInfo)) (sess : List String) (token : String) (info : TokenInfo),
      load_token tokens token = some info →
      (session_authed sess token = false →
        quote_view tokens sess token = .redirect ("/quote/" ++ token)) ∧
      (quote_auth tokens sess token info.password = (.ok, token :: sess) ∧
        session_authed (token :: sess) token = true ∧
        (∀ t, t ≠ token → session_authed (token :: sess) t = session_authed sess t) ∧
        quote_view tokens (token :: sess) token = .page info.record_id) ∧
      (∀ pw, pw ≠ info.password → quote_auth tokens sess token pw = (.wrongPassword, sess)) := by
  intro tokens sess token info hload
  refine ⟨?_, ⟨?_, ?_, ?_, ?_⟩, ?_⟩
  · intro hn
    simp [quote_view, hload, hn]
  · simp [quote_auth, hload]
  · simp [session_authed]
  · intro t ht
    have h1 : (t == token) = false := beq_eq_false_iff_ne.mpr ht
    have h2 : (token == t) = false := beq_eq_false_iff_ne.mpr (Ne.symm ht)
    simp only [session_authed, List.contains_cons, h1, h2, Bool.false_or]
  · simp [quote_view, hload, session_authed]
  · intro pw hpw
    simp [quote_auth, hload, hpw]

/-- C6 witness: the gating theorem applied at a concrete one-token store,
each hypothesis discharged by evaluation. -/
theorem quote_portal_gating_witness :
    quote_view tokens_ex [] "tok1" = .redirect "/quote/tok1" ∧
    quote_auth tokens_ex [] "tok1" "pw1" = (.ok, ["tok1"]) ∧
    quote_view tokens_ex ["tok1"] "tok1" = .page "rec1" ∧
    quote_auth tokens_ex [] "tok1" "wrong" = (.wrongPassword, []) :=
  ⟨(quote_portal_gating tokens_ex [] "tok1" _ rfl).1 rfl,
   (quote_portal_gating tokens_ex [] "tok1" _ rfl).2.1.1,
   (quote_portal_gating tokens_ex [] "tok1" _ rfl).2.1.2.2.2,
   (quote_portal_gating tokens_ex [] "tok1" _ rfl).2.2 "wrong" (by decide)⟩

/-- C4 (spec-modelled): the patch routes exist for events and fields; in the
authenticated-session state an `update-event` request patches exactly the
supplied fields (start time, day with its re-resolved date, quantity,
duration) and pushes the result to the CRM, and an `update-field` request
patches the guest count when the value parses as an integer; outside the
authenticated state both routes are rejected as unauthorized. -/
theorem patch_routes_gated :
    ∀ (tokens : List (String × TokenInfo)) (sess : List String) (token : String) (info : TokenInfo)
      (day_dates : Nat → Option String) (ev : ItineraryEvent) (body : EventPatch)
      (client : ClientRecord),
      load_token tokens token = some info →
      (session_authed sess token = true →
        update_event tokens sess token day_dates ev body = .ok (apply_event_patch day_dates ev body) ∧
        (body.start_time = none → (apply_event_patch day_dates ev body).start_time = ev.start_time) ∧
        (∀ v, body.start_time = some v → (apply_event_patch day_dates ev body).start_time = v) ∧
        (body.day = none → (apply_event_patch day_dates ev body).day = ev.day ∧
          (apply_event_patch day_dates ev body).date = ev.date) ∧
        (∀ d, body.day = some d → (apply_event_patch day_dates ev body).day = d ∧
          (apply_event_patch day_dates ev body).date = (day_dates d).getD ev.date) ∧
        (body.quantity = none → (apply_event_patch day_dates ev body).quantity = ev.quantity) ∧
        (∀ q, body.quantity = some q → (apply_event_patch day_dates ev body).quantity = q) ∧
        (body.duration = none → (apply_event_patch day_dates ev body).duration = ev.duration) ∧
        (∀ u, body.duration = some u → (apply_event_patch day_dates ev body).duration = u) ∧
        (∀ value k, parse_int? value = some k →
          update_field tokens sess token client "People" value = .ok { client with people := k }) ∧
        (∀ value, parse_int? value = none →
          update_field tokens sess token client "People" value = .rejected) ∧
        (∀ fld value, fld ≠ "People" → update_field tokens sess token client fld value = .rejected)) ∧
      (session_authed sess token = false →
        update_event tokens sess token day_dates ev body = .unauthorized ∧
        (∀ fld value, update_field tokens sess token client fld value = .unauthorized)) := by
  intro tokens sess token info day_dates ev body client hload
  constructor
  · intro hs
    refine ⟨?_, ?_, ?_, ?_, ?_, ?_, ?_, ?_, ?_, ?_, ?_, ?_⟩
    · simp [update_event, hload, hs]
    · intro h
      simp [apply_event_patch, h]
    · intro v h
      simp [apply_event_patch, h]
    · intro h
      simp [apply_event_patch, h]
    · intro d h
      simp [apply_event_patch, h]
    · intro h
      simp [apply_event_patch, h]
    · intro q h
      simp [apply_event_patch, h]
    · intro h
      simp [apply_event_patch, h]
    · intro u h
      simp [apply_event_patch, h]
    · intro value k h
      simp [update_field, hload, hs, h]
    · intro value h
      simp [update_field, hload, hs, h]
    · intro fld value h
      simp [update_field, hload, hs, h]
  · intro hs
    refine ⟨?_, ?_⟩
    · simp [update_event, hload, hs]
    · intro fld value
      simp [update_field, hload, hs]

/-- C4 witness: the patch theorem applied at a concrete authenticated and a
concrete unauthenticated session, hypotheses discharged by evaluation. -/
theorem patch_routes_gated_witness :
    update_event tokens_ex ["tok1"] "tok1" day_dates_ex ev_ex body_ex =
      .ok { start_time := "9:00 PM", day := 2, date := "June 7", quantity := 10, duration := 2 } ∧
    update_field tokens_ex ["tok1"] "tok1" { people := 10 } "People" "12" = .ok { people := 12 } ∧
    update_event tokens_ex [] "tok1" day_dates_ex ev_ex body_ex = .unauthorized ∧
    update_field tokens_ex [] "tok1" { people := 10 } "People" "12" = .unauthorized :=
  ⟨((patch_routes_gated tokens_ex ["tok1"] "tok1" _ day_dates_ex ev_ex body_ex { people := 10 } rfl).1 rfl).1,
   (((patch_routes_gated tokens_ex ["tok1"] "tok1" _ day_dates_ex ev_ex body_ex { people := 10 } rfl).1 rfl).2.2.2.2.2.2.2.2.2.1) "12" 12 rfl,
   ((patch_routes_gated tokens_ex [] "tok1" _ day_dates_ex ev_ex body_ex { people := 10 } rfl).2 rfl).1,
   ((patch_routes_gated tokens_ex [] "tok1" _ day_dates_ex ev_ex body_ex { people := 10 } rfl).2 rfl).2 "People" "12"⟩

/-- Cache hit: a truthy, fresh slot is returned unchanged without invoking
the fetchers. -/
theorem fetch_hit (w : ServerWorld) (now : Int) (u : Upstream) (d : ServerPayload)
    (hd : w.cache.data = some d) (ht : payload_truthy d = true)
    (hfresh : now - w.cache.ts < CACHE_TTL) :
    fetch_live_data now u w = (d, w, false) := by
  simp [fetch_live_data, hd, ht, hfresh]

/-- Cache miss: an empty, falsy or stale slot triggers a fetch that
overwrites the slot and the disk mirror with the assembled payload and the
current timestamp. -/
theorem fetch_miss (w : ServerWorld) (now : Int) (u : Upstream)
    (h : ∀ d, w.cache.data = some d → payload_truthy d = false ∨ ¬(now - w.cache.ts < CACHE_TTL)) :
    fetch_live_data now u w =
      (assemble_payload u,
       { cache := { data := some (assemble_payload u), ts := now },
         disk := some (assemble_payload u, now) }, true) := by
  rcases hcd : w.cache.data with _ | d
  · simp [fetch_live_data, hcd]
  · rcases h d hcd with hf | hstale
    · simp [fetch_live_data, hcd, hf]
    · simp [fetch_live_data, hcd, decide_eq_false hstale]

/-- C7: whenever the cache slot is populated (a truthy payload) and
`now - timestamp < TTL`, a read returns the cached payload unchanged without
invoking the fetchers; after the explicit refresh zeroes the timestamp, the
read re-fetches regardless of how recently the slot was written (for any
wall-clock `now ≥ TTL`, i.e. any time from 31 minutes past the 1970 epoch). -/
theorem cache_policy_correct :
    (∀ (w : ServerWorld) (now : Int) (u : Upstream) (d : ServerPayload),
      w.cache.data = some d → payload_truthy d = true → now - w.cache.ts < CACHE_TTL →
      fetch_live_data now u w = (d, w, false)) ∧
    (∀ (w : ServerWorld) (now : Int) (u : Upstream),
      CACHE_TTL ≤ now → (api_refresh now u w).2.2 = true) := by
  constructor
  · exact fun w now u d hd ht hfresh => fetch_hit w now u d hd ht hfresh
  · intro w now u h
    have hstale : ∀ d,
        ({ w with cache := { w.cache with ts := 0 } } : ServerWorld).cache.data = some d →
        payload_truthy d = false ∨
        ¬(now - ({ w with cache := { w.cache with ts := 0 } } : ServerWorld).cache.ts < CACHE_TTL) := by
      intro d _
      refine Or.inr fun hlt => ?_
      rw [sub_zero] at hlt
      exact absurd hlt (not_lt.mpr h)
    show (fetch_live_data now u { w with cache := { w.cache with ts := 0 } }).2.2 = true
    rw [fetch_miss _ now u hstale]

/-- C7 witness: a fresh read at 1500 returns the slot without fetching, and a
refresh at 2000 re-fetches, hypotheses discharged concretely. -/
theorem cache_policy_correct_witness :
    fetch_live_data 1500 upstream_err world_ex = (payload_ex, world_ex, false) ∧
    (api_refresh 2000 upstream_err world_ex).2.2 = true :=
  ⟨cache_policy_correct.1 world_ex 1500 upstream_err payload_ex rfl rfl (by decide),
   cache_policy_correct.2 world_ex 2000 upstream_err (by decide)⟩

/-- C10: on a cache miss, `fetch_live_data` overwrites the slot and the disk
mirror with whatever payload it assembled and the current timestamp, even
when both upstream fetches raised and the payload holds only
`posthog_error`/`airtable_error`; every subsequent read within the TTL then
returns that failure payload without invoking the fetchers again. -/
theorem fetch_failure_cached :
    ∀ (w : ServerWorld) (now : Int) (e1 e2 : String),
      (∀ d, w.cache.data = some d → payload_truthy d = false ∨ ¬(now - w.cache.ts < CACHE_TTL)) →
      fetch_live_data now { posthog := .error e1, airtable_token := true, airtable := .error e2 } w =
        (({ posthog_error := some e1, airtable_error := some e2 } : ServerPayload),
         { cache := { data := some { posthog_error := some e1, airtable_error := some e2 }, ts := now },
           disk := some ({ posthog_error := some e1, airtable_error := some e2 }, now) }, true) ∧
      (∀ (now2 : Int) (u2 : Upstream), now2 - now < CACHE_TTL →
        fetch_live_data now2 u2
            { cache := { data := some { posthog_error := some e1, airtable_error := some e2 }, ts := now },
              disk := some ({ posthog_error := some e1, airtable_error := some e2 }, now) } =
          (({ posthog_error := some e1, airtable_error := some e2 } : ServerPayload),
           { cache := { data := some { posthog_error := some e1, airtable_error := some e2 }, ts := now },
             disk := some ({ posthog_error := some e1, airtable_error := some e2 }, now) }, false)) := by
  intro w now e1 e2 hmiss
  constructor
  · exact fetch_miss w now _ hmiss
  · intro now2 u2 hf
    exact fetch_hit _ now2 u2 _ rfl rfl hf

/-- C10 witness: a double-failure fetch on an empty cache at 5000 stores the
error payload, and a read at 6000 (within the TTL) returns it without
fetching, hypotheses discharged concretely. -/
theorem fetch_failure_cached_witness :
    fetch_live_data 5000 { posthog := .error "PostHog down", airtable_token := true, airtable := .error "Airtable down" } {} =
      (({ posthog_error := some "PostHog down", airtable_error := some "Airtable down" } : ServerPayload),
       err_world, true) ∧
    fetch_live_data 6000 upstream_ok err_world =
      (({ posthog_error := some "PostHog down", airtable_error := some "Airtable down" } : ServerPayload),
       err_world, false) :=
  ⟨(fetch_failure_cached {} 5000 "PostHog down" "Airtable down" (fun d h => Option.noConfusion h)).1,
   (fetch_failure_cached {} 5000 "PostHog down" "Airtable down" (fun d h => Option.noConfusion h)).2 6000 upstream_ok (by decide)⟩

/-- Inserting into a list ordered by a `Nat` key preserves each key's filter
group up to prepending the new element: the skipped elements all have
strictly smaller keys than the inserted one. -/
theorem filter_orderedInsert_key {α : Type} (key : α → Nat) (k : Nat) (x : α) (l : List α) :
    (List.orderedInsert (fun a b => key a ≤ key b) x l).filter (fun a => key a == k) =
      if key x = k then x :: l.filter (fun a => key a == k)
      else l.filter (fun a => key a == k) := by
  induction l with
  | nil => simp [List.orderedInsert, List.filter_cons, beq_iff_eq]
  | cons y ys ih =>
    by_cases hxy : key x ≤ key y
    · rw [List.orderedInsert, if_pos hxy]
      simp [List.filter_cons, beq_iff_eq]
    · rw [List.orderedInsert, if_neg hxy]
      rw [List.filter_cons, List.filter_cons, ih]
      by_cases hx : key x = k
      · have hy : ¬(key y = k) := fun he => hxy (le_of_eq (hx.trans he.symm))
        simp [hx, hy, List.filter_cons]
      · simp [hx]

/-- Insertion sort by a `Nat` key preserves each key's filter group verbatim:
the sort is stable. -/
theorem filter_insertionSort_key {α : Type} (key : α → Nat) (k : Nat) (l : List α) :
    (List.insertionSort (fun a b => key a ≤ key b) l).filter (fun a => key a == k) =
      l.filter (fun a => key a == k) := by
  induction l with
  | nil => rfl
  | cons x xs ih =>
    rw [List.insertionSort, filter_orderedInsert_key key k x (List.insertionSort _ xs), ih,
      List.filter_cons]
    by_cases hx : key x = k
    · simp [hx]
    · simp [hx]

/-- C8: the serialized order sorts by the fixed priority rank — every "high"
proposal precedes every "medium" precedes every "low" — the output is a
permutation of the input, and for proposals carrying the three mapped
priorities each priority group keeps its input order verbatim (`sorted` is
stable). -/
theorem proposals_sorted_stably :
    ∀ ps : List Proposal,
      List.Sorted (fun a b => priority_rank a.priority ≤ priority_rank b.priority) (sort_proposals ps) ∧
      (sort_proposals ps).Perm ps ∧
      ((∀ p ∈ ps, p.priority = "high" ∨ p.priority = "medium" ∨ p.priority = "low") →
        (sort_proposals ps).filter (fun p => p.priority == "high") =
          ps.filter (fun p => p.priority == "high") ∧
        (sort_proposals ps).filter (fun p => p.priority == "medium") =
          ps.filter (fun p => p.priority == "medium") ∧
        (sort_proposals ps).filter (fun p => p.priority == "low") =
          ps.filter (fun p => p.priority == "low")) := by
  intro ps
  haveI : IsTotal Proposal (fun a b => priority_rank a.priority ≤ priority_rank b.priority) :=
    ⟨fun a b => le_total _ _⟩
  haveI : IsTrans Proposal (fun a b => priority_rank a.priority ≤ priority_rank b.priority) :=
    ⟨fun a b c hab hbc => le_trans hab hbc⟩
  have hperm : (sort_proposals ps).Perm ps := List.perm_insertionSort _ ps
  refine ⟨List.sorted_insertionSort _ ps, hperm, ?_⟩
  intro hp
  have transfer : ∀ (v : String) (k : Nat),
      (∀ p ∈ ps, (p.priority == v) = (priority_rank p.priority == k)) →
      (sort_proposals ps).filter (fun p => p.priority == v) =
        ps.filter (fun p => p.priority == v) := by
    intro v k hcomp
    have hcomp' : ∀ p ∈ sort_proposals ps, (p.priority == v) = (priority_rank p.priority == k) :=
      fun p hmem => hcomp p (hperm.mem_iff.mp hmem)
    calc (sort_proposals ps).filter (fun p => p.priority == v)
        = (sort_proposals ps).filter (fun p => priority_rank p.priority == k) :=
          List.filter_congr hcomp'
      _ = ps.filter (fun p => priority_rank p.priority == k) :=
          filter_insertionSort_key (fun p => priority_rank p.priority) k ps
      _ = ps.filter (fun p => p.priority == v) := (List.filter_congr hcomp).symm
  refine ⟨transfer "high" 0 ?_, transfer "medium" 1 ?_, transfer "low" 2 ?_⟩ <;>
    · intro p hmem
      rcases hp p hmem with h | h | h <;> rw [h] <;> decide

/-- C8 witness: the sorting theorem applied to a concrete mixed-priority
list, its priority hypothesis discharged by evaluation. -/
theorem proposals_sorted_stably_witness :
    List.Sorted (fun a b => priority_rank a.priority ≤ priority_rank b.priority) (sort_proposals props_ex) ∧
    (sort_proposals props_ex).filter (fun p => p.priority == "high") =
      props_ex.filter (fun p => p.priority == "high") :=
  ⟨(proposals_sorted_stably props_ex).1,
   ((proposals_sorted_stably props_ex).2.2 (by decide)).1⟩

/-- No character that `Nat.toDigitsCore` prepends is a dash. -/
theorem toDigitsCore_ne_dash : ∀ (f n : Nat) (ds : List Char), (∀ c ∈ ds, c ≠ '-') →
    ∀ c ∈ Nat.toDigitsCore 10 f n ds, c ≠ '-' := by
  intro f
  induction f with
  | zero => intro n ds h c hc; exact h c hc
  | succ f ih =>
    intro n ds h c hc
    simp only [Nat.toDigitsCore] at hc
    have hall : ∀ k, k < 10 → Nat.digitChar k ≠ '-' := by decide
    have hd : Nat.digitChar (n % 10) ≠ '-' := hall _ (Nat.mod_lt _ (by norm_num))
    by_cases hz : n / 10 = 0
    · rw [if_pos hz] at hc
      rcases List.mem_cons.mp hc with rfl | hc
      · exact hd
      · exact h c hc
    · rw [if_neg hz] at hc
      refine ih (n / 10) (Nat.digitChar (n % 10) :: ds) ?_ c hc
      intro x hx
      rcases List.mem_cons.mp hx with rfl | hx
      · exact hd
      · exact h x hx

/-- Folding the positional-value accumulator through the digits
`Nat.toDigitsCore` produces recovers the encoded number. -/
theorem foldl_toDigitsCore : ∀ (f n : Nat) (ds : List Char), n < 10 ^ f →
    (Nat.toDigitsCore 10 f n ds).foldl (fun a c => 10 * a + (c.toNat - 48)) 0 =
      ds.foldl (fun a c => 10 * a + (c.toNat - 48)) n := by
  intro f
  induction f with
  | zero =>
    intro n ds h0
    have hn : n = 0 := Nat.lt_one_iff.mp h0
    subst hn
    rfl
  | succ f ih =>
    intro n ds hn
    simp only [Nat.toDigitsCore]
    have hdc : ∀ k, k < 10 → (Nat.digitChar k).toNat - 48 = k := by decide
    have hmod : n % 10 < 10 := Nat.mod_lt _ (by norm_num)
    by_cases hz : n / 10 = 0
    · rw [if_pos hz]
      rw [List.foldl_cons]
      have hacc : 10 * 0 + ((Nat.digitChar (n % 10)).toNat - 48) = n := by
        rw [hdc _ hmod]
        omega
      rw [hacc]
    · rw [if_neg hz]
      have hlt : n / 10 < 10 ^ f := by
        refine Nat.div_lt_of_lt_mul ?_
        calc n < 10 ^ (f + 1) := hn
          _ = 10 * 10 ^ f := by rw [pow_succ]; ring
      rw [ih (n / 10) (Nat.digitChar (n % 10) :: ds) hlt, List.foldl_cons]
      have hacc : 10 * (n / 10) + ((Nat.digitChar (n % 10)).toNat - 48) = n := by
        rw [hdc _ hmod]
        omega
      rw [hacc]

/-- The decimal representation of `n` folds back to `n`. -/
theorem digits_val_repr (n : Nat) : digits_val (Nat.repr n).data = n := by
  have hlt : n < 10 ^ (n + 1) :=
    lt_of_lt_of_le (Nat.lt_pow_self (by norm_num) n)
      (Nat.pow_le_pow_right (by norm_num) (Nat.le_succ n))
  have h := foldl_toDigitsCore (n + 1) n [] hlt
  exact h

/-- No character of the decimal representation of `n` is a dash. -/
theorem repr_ne_dash (n : Nat) : ∀ c ∈ (Nat.repr n).data, c ≠ '-' :=
  toDigitsCore_ne_dash (n + 1) n [] (fun c hc => absurd hc (List.not_mem_nil c))

/-- A `takeWhile` over a satisfying prefix followed by a failing sentinel
returns exactly the prefix. -/
theorem takeWhile_append_sentinel {α : Type} (p : α → Bool) (l1 l2 : List α) (x : α)
    (h1 : ∀ c ∈ l1, p c = true) (hx : p x = false) :
    (l1 ++ x :: l2).takeWhile p = l1 := by
  induction l1 with
  | nil => simp [List.takeWhile_cons, hx]
  | cons a l ih =>
    have ha := h1 a (List.mem_cons_self a l)
    simp only [List.cons_append, List.takeWhile_cons, ha, if_true]
    rw [ih (fun c hc => h1 c (List.mem_cons_of_mem a hc))]

/-- Extracting the digits after the final dash of `base ++ "-" ++ repr n`
recovers `n`, for every base string. -/
theorem id_counter_val_append (base : String) (n : Nat) :
    id_counter_val (base ++ "-" ++ Nat.repr n) = n := by
  unfold id_counter_val
  have hdata : (base ++ "-" ++ Nat.repr n).data = base.data ++ '-' :: (Nat.repr n).data := by
    rw [String.data_append, String.data_append]
    simp
  rw [hdata]
  have hrev : (base.data ++ '-' :: (Nat.repr n).data).reverse =
      (Nat.repr n).data.reverse ++ '-' :: base.data.reverse := by
    simp
  rw [hrev]
  rw [takeWhile_append_sentinel _ _ _ _
    (fun c hc => bne_iff_ne.mpr (repr_ne_dash n c (List.mem_reverse.mp hc)))
    (by decide)]
  rw [List.reverse_reverse]
  exact digits_val_repr n

/-- Binding an error short-circuits. -/
theorem error_bind {ε α β : Type} (e : ε) (f : α → Except ε β) :
    ((Except.error e : Except ε α) >>= f) = .error e := rfl

/-- The empty analyzer state satisfies the invariant. -/
theorem ids_ok_init : ids_ok {} :=
  ⟨List.nodup_nil, fun p hp => absurd hp (List.not_mem_nil p)⟩

/-- `add_proposal` preserves the invariant: the fresh id ends in the strictly
increased counter, so it differs from every stored id. -/
theorem add_proposal_preserves (st : AnalyzerState) (b c1 c2 c3 c4 c5 c6 : String)
    (h : ids_ok st) : ids_ok (add_proposal st b c1 c2 c3 c4 c5 c6) := by
  obtain ⟨hnd, hle⟩ := h
  simp only [add_proposal, generate_id, ids_ok]
  constructor
  · simp only [List.map_append, List.map_cons, List.map_nil]
    rw [List.nodup_append]
    refine ⟨hnd, List.nodup_singleton _, ?_⟩
    intro s hs hs2
    rw [List.mem_singleton] at hs2
    subst hs2
    obtain ⟨p, hp, hpid⟩ := List.mem_map.mp hs
    have h1 : id_counter_val p.id ≤ st.counter := hle p hp
    rw [hpid, id_counter_val_append] at h1
    omega
  · intro p hp
    rcases List.mem_append.mp hp with hp | hp
    · exact le_trans (hle p hp) (Nat.le_succ _)
    · rw [List.mem_singleton] at hp
      subst hp
      simp only [id_counter_val_append]
      exact le_refl _

/-- Any sequence of `add_proposal` calls preserves the invariant. -/
theorem run_adds_preserves (inputs : List ProposalInput) :
    ∀ st : AnalyzerState, ids_ok st → ids_ok (run_adds inputs st) := by
  induction inputs with
  | nil => exact fun st h => h
  | cons i is ih =>
    exact fun st h => ih _
      (add_proposal_preserves st i.id_base i.priority i.category i.issue i.solution i.effort i.impact h)

/-- The global counter grows by one per emitted proposal (it is monotonic,
in particular monotonic restricted to any one rule-base-name). -/
theorem run_adds_counter (inputs : List ProposalInput) :
    ∀ st : AnalyzerState, (run_adds inputs st).counter = st.counter + inputs.length := by
  induction inputs with
  | nil => exact fun st => rfl
  | cons i is ih =>
    intro st
    have h := ih (add_proposal st i.id_base i.priority i.category i.issue i.solution i.effort i.impact)
    have hcnt : (add_proposal st i.id_base i.priority i.category i.issue i.solution i.effort i.impact).counter = st.counter + 1 := rfl
    simp only [run_adds, List.foldl_cons] at h ⊢
    rw [h, hcnt, List.length_cons]
    omega

/-- Rule 1 preserves the id invariant. -/
theorem preserve_r1 (ph : PosthogData) (airtable : AirtableData) (st st' : AnalyzerState)
    (h : analyze_ad_conversion ph airtable st = .ok st') (hi : ids_ok st) : ids_ok st' := by
  by_cases hc : 50 < total_ad_views ph ∧ airtable.new_leads_7d.getD 0 < 20
  · have htot : total_ad_views ph ≠ 0 := by
      intro h0
      rw [h0] at hc
      exact absurd hc.1 (by norm_num)
    simp only [analyze_ad_conversion, py_int_pct, if_pos hc, if_neg htot, ok_bind] at h
    injection h with h
    subst h
    exact add_proposal_preserves _ _ _ _ _ _ _ _ hi
  · simp only [analyze_ad_conversion, if_neg hc] at h
    injection h with h
    subst h
    exact hi

/-- Rule 2 preserves the id invariant. -/
theorem preserve_r2 (month : String) (airtable : AirtableData) (st st' : AnalyzerState)
    (h : analyze_pipeline_closure month airtable st = .ok st') (hi : ids_ok st) : ids_ok st' := by
  by_cases hc : 15 < (airtable.pipeline.getD {}).quoted.getD 0 ∧ (airtable.pipeline.getD {}).booked.getD 0 = 0
  · simp only [analyze_pipeline_closure, if_pos hc] at h
    injection h with h
    subst h
    exact add_proposal_preserves _ _ _ _ _ _ _ _ hi
  · simp only [analyze_pipeline_closure, if_neg hc] at h
    injection h with h
    subst h
    exact hi

/-- Rule 3 preserves the id invariant. -/
theorem preserve_r3 (today : Int) (airtable : AirtableData) (st st' : AnalyzerState)
    (h : analyze_followup_cadence today airtable st = .ok st') (hi : ids_ok st) : ids_ok st' := by
  by_cases hl : 3 < (airtable.leads_needing_followup.getD [] : List FollowupLead).length
  · simp only [analyze_followup_cadence, if_pos hl] at h
    rcases hco : count_overdue today (airtable.leads_needing_followup.getD []) with e | k
    · rw [hco, error_bind] at h
      exact Except.noConfusion h
    · rw [hco, ok_bind] at h
      injection h with h
      subst h
      exact add_proposal_preserves _ _ _ _ _ _ _ _ hi
  · simp only [analyze_followup_cadence, if_neg hl] at h
    injection h with h
    subst h
    exact hi

/-- Rule 4 preserves the id invariant. -/
theorem preserve_r4 (ph : PosthogData) (airtable : AirtableData) (st st' : AnalyzerState)
    (h : analyze_content_depth ph airtable st = .ok st') (hi : ids_ok st) : ids_ok st' := by
  simp only [analyze_content_depth, py_int_pct] at h
  split at h
  · injection h with h
    subst h
    exact hi
  · rename_i p0 rest heq
    by_cases hg : 0 < (if p0.url = "/" then p0.views else 0) ∧
        other_views_sum rest < 2 * (if p0.url = "/" then p0.views else 0)
    · by_cases htv : ph.total_pageviews_7d.getD 0 = 0
      · rw [if_pos hg, if_pos htv, error_bind] at h
        exact Except.noConfusion h
      · rw [if_pos hg, if_neg htv] at h
        simp only [ok_bind] at h
        rw [if_neg htv] at h
        simp only [ok_bind] at h
        injection h with h
        subst h
        exact add_proposal_preserves _ _ _ _ _ _ _ _ hi
    · rw [if_neg hg] at h
      injection h with h
      subst h
      exact hi

/-- Rule 5 preserves the id invariant. -/
theorem preserve_r5 (ph : PosthogData) (st st' : AnalyzerState)
    (h : analyze_traffic_sources ph st = .ok st') (hi : ids_ok st) : ids_ok st' := by
  simp only [analyze_traffic_sources, py_int_pct] at h
  by_cases h100 : 100 < (seo_counts (ph.traffic_sources.getD [])).1 + (seo_counts (ph.traffic_sources.getD [])).2
  · have htot : (seo_counts (ph.traffic_sources.getD [])).1 + (seo_counts (ph.traffic_sources.getD [])).2 ≠ 0 := by
      intro h0
      rw [h0] at h100
      exact absurd h100 (by norm_num)
    rw [if_pos h100, if_neg htot] at h
    simp only [ok_bind] at h
    by_cases h60 : int_pct (seo_counts (ph.traffic_sources.getD [])).1
        ((seo_counts (ph.traffic_sources.getD [])).1 + (seo_counts (ph.traffic_sources.getD [])).2) < 60
    · rw [if_pos h60] at h
      by_cases horg : (seo_counts (ph.traffic_sources.getD [])).1 = 0
      · rw [if_pos horg, error_bind] at h
        exact Except.noConfusion h
      · rw [if_neg horg] at h
        simp only [ok_bind] at h
        injection h with h
        subst h
        exact add_proposal_preserves _ _ _ _ _ _ _ _ hi
    · rw [if_neg h60] at h
      injection h with h
      subst h
      exact hi
  · rw [if_neg h100] at h
    injection h with h
    subst h
    exact hi

/-- A successful `analyze` run's state satisfies the id invariant. -/
theorem analyze_ids_nodup (report : Report) (today : Int) (month : String) (ps : List Proposal)
    (h : analyze report today month = .ok ps) : (ps.map Proposal.id).Nodup := by
  simp only [analyze] at h
  rcases e1 : analyze_ad_conversion (report.posthog.getD {}) (report.airtable.getD {}) {} with e | st1
  · rw [e1, error_bind] at h
    exact Except.noConfusion h
  rw [e1, ok_bind] at h
  rcases e2 : analyze_pipeline_closure month (report.airtable.getD {}) st1 with e | st2
  · rw [e2, error_bind] at h
    exact Except.noConfusion h
  rw [e2, ok_bind] at h
  rcases e3 : analyze_followup_cadence today (report.airtable.getD {}) st2 with e | st3
  · rw [e3, error_bind] at h
    exact Except.noConfusion h
  rw [e3, ok_bind] at h
  rcases e4 : analyze_content_depth (report.posthog.getD {}) (report.airtable.getD {}) st3 with e | st4
  · rw [e4, error_bind] at h
    exact Except.noConfusion h
  rw [e4, ok_bind] at h
  rcases e5 : analyze_traffic_sources (report.posthog.getD {}) st4 with e | st5
  · rw [e5, error_bind] at h
    exact Except.noConfusion h
  rw [e5, ok_bind] at h
  injection h with h
  subst h
  have i1 := preserve_r1 _ _ _ _ e1 ids_ok_init
  have i2 := preserve_r2 _ _ _ _ e2 i1
  have i3 := preserve_r3 _ _ _ _ e3 i2
  have i4 := preserve_r4 _ _ _ _ e4 i3
  have i5 := preserve_r5 _ _ _ e5 i4
  exact i5.1

/-- C9: proposal ids are unique within a run — for any sequence of
`add_proposal` calls (a rule firing arbitrarily often) the generated
`base ++ "-" ++ counter` ids are pairwise distinct, the counter grows
monotonically (one per proposal), and every successful `analyze()`
invocation's proposal list has pairwise-distinct ids. -/
theorem proposal_ids_unique :
    (∀ inputs : List ProposalInput, ((run_adds inputs {}).proposals.map Proposal.id).Nodup) ∧
    (∀ inputs : List ProposalInput, ∀ st : AnalyzerState,
      (run_adds inputs st).counter = st.counter + inputs.length) ∧
    (∀ (report : Report) (today : Int) (month : String) (ps : List Proposal),
      analyze report today month = .ok ps → (ps.map Proposal.id).Nodup) :=
  ⟨fun inputs => (run_adds_preserves inputs {} ids_ok_init).1,
   fun inputs st => run_adds_counter inputs st,
   fun report today month ps h => analyze_ids_nodup report today month ps h⟩

/-- C9 witness: the uniqueness theorem applied to the concrete quoted-20 run,
its success hypothesis discharged by evaluation. -/
theorem proposal_ids_unique_witness :
    (((analyze report_c2 0 "March").toOption.getD []).map Proposal.id).Nodup :=
  proposal_ids_unique.2.2 report_c2 0 "March" ((analyze report_c2 0 "March").toOption.getD []) rfl
